import Mathlib

/-!
Verification development for the GeneralizedZonalStats repository
(GRASS GIS zonal-statistics driver).

The repository is glue code around an external GIS engine.  The shallow
embedding below models:
  * the metric function `proportion_habitat` as a function of the parsed
    value-frequency table returned by the engine (`r.stats -c` output,
    one `(value, count)` row per line; Python floats are modelled as
    exact rationals);
  * the metric function `number_patches` and the driver methods of the
    `GeneralizedZonalStats` class (`__init__`, `create_new_column`,
    `run_zonal_stats`) as state transformers over an explicit engine
    state, with the external engine's query answers supplied by an
    `Engine` record of oracles and the interactive prompt answers by a
    function from prompt index to reply.
Python exceptions are modelled by an error component of the result;
`grass.error` (which logs and continues) is modelled by a list of
emitted messages.
-/

/-- Messages emitted through grass.error by proportion_habitat; the
constructor tags the call site in the source. -/
inductive PHMsg where
  /-- more than 3 rows: values must be 0, 1 or null -/
  | tooManyValues
  /-- third row value is not the null marker -/
  | badThirdValue
  /-- message of the bare except around the division -/
  | badValues
deriving DecidableEq

/-- Uncaught Python exceptions of proportion_habitat. -/
inductive PHExn where
  /-- IndexError: list index out of range -/
  | idxErr
  /-- raise Exception with message Error in raster cell values n.1. -/
  | cellValuesErr1
deriving DecidableEq

/-- Second half of proportion_habitat: the classification of the one-row
and the guarded division.  `zcf` is zero_count_float, `ocf0` is the value
of one_count_float as possibly bound by the zero-branch (none = unbound
local variable, whose use raises NameError, caught by the bare except
like ZeroDivisionError). -/
def phFinish (zero one : String) (zcf : ℚ) (ocf0 : Option ℚ) (one_count : ℚ)
    (msgs : List PHMsg) : Except PHExn (Option ℚ × List PHMsg) :=
  let ocf : Option ℚ :=
    if one = "1" then some one_count
    else if one = "*" ∧ zero = "0" then some 0
    else ocf0
  match ocf with
  | none => .ok (none, msgs ++ [.badValues])
  | some o =>
      if o + zcf = 0 then .ok (none, msgs ++ [.badValues])
      else .ok (some (100 * (o / (o + zcf))), msgs)

/-- Shallow embedding of proportion_habitat (GeneralizedZonalStats.py,
lines 21-95).  `rows` is the parsed `r.stats -c` frequency table:
one `(value-string, count)` pair per nonempty output line. -/
def proportion_habitat (rows : List (String × ℚ)) :
    Except PHExn (Option ℚ × List PHMsg) :=
  if rows.length > 3 then .ok (none, [.tooManyValues])
  else
    match rows[0]? with
    | none => .error .idxErr
    | some (zero, zero_count) =>
      match rows[1]? with
      | none => .error .idxErr
      | some (one, one_count) =>
        let null : String :=
          if rows.length = 3 then ((rows[2]?).map Prod.fst).getD "" else ""
        let msgs : List PHMsg :=
          if rows.length = 3 ∧ null ≠ "*" then [.badThirdValue] else []
        if zero = "0" then
          phFinish zero one zero_count none one_count msgs
        else if zero = "1" then
          phFinish zero one 0 (some zero_count) one_count msgs
        else .error .cellValuesErr1

example : proportion_habitat [("0", 3), ("1", 1)] = .ok (some 25, []) := by
  simp +decide [proportion_habitat, phFinish]
  norm_num

example : proportion_habitat [("0", 3), ("*", 5)] = .ok (some 0, []) := by
  simp +decide [proportion_habitat, phFinish]

example : proportion_habitat [("1", 3), ("*", 5)] = .ok (some 100, []) := by
  simp +decide [proportion_habitat, phFinish]

example : proportion_habitat [("0", 5)] = .error .idxErr := by
  simp +decide [proportion_habitat]

example : proportion_habitat [] = .error .idxErr := by
  simp +decide [proportion_habitat]

example : proportion_habitat [("0", 0), ("1", 0)] = .ok (none, [.badValues]) := by
  simp +decide [proportion_habitat, phFinish]

/-! ### The GeneralizedZonalStats object and the external engine -/

/-- The Python-level state of a GeneralizedZonalStats object: the two
readiness flags and the recorded map/column names
(GeneralizedZonalStats.py, lines 126-224). -/
structure State where
  load_ok : Bool
  set_cols : Bool
  input_shape : String
  input_rasters : List String
  column_names : List String
deriving DecidableEq

/-- Embedding of the constructor `__init__` (GeneralizedZonalStats.py,
lines 129-212): it records the map names, leaves set_cols false and ends
with load_ok true (the engine import commands it issues are elided; the
column_names attribute, unset in Python until create_new_column runs, is
modelled as the empty list). -/
def initGZS (input_shape : String) (input_rasters : List String) : State :=
  { load_ok := true, set_cols := false,
    input_shape := input_shape, input_rasters := input_rasters,
    column_names := [] }

/-- The external engine's workspace state as far as the driver mutates
it: current processing region, currently active mask (the cat whose
feature is masked), the set of rasters the driver created, and the
chronological log of v.db.update writes (cat, column, value).
Regions and raster contents are opaque descriptors (strings). -/
structure EngState where
  region : String
  maskCat : Option String
  temps : List String
  db : List (String × String × String)
deriving DecidableEq

/-- Read-only oracles for the external engine's query answers.
`catQuery t` is the line list of `db.select SELECT cat FROM t`;
`featureExtent shape cat` the parsed n/s/e/w bounds of `v.db.select -r`;
`alignedRegion ext r` the region set by `g.region n s e w align=r`;
`rasterRes r` the ewres/nsres of `r.raster_info`;
`vectorRegion shape res r` the region of `g.region vector= ewres nsres align=`;
`rasterize shape cat reg` the content of the temp raster from `v.to.rast`;
`zoomedRegion td` the region after `g.region raster=temp_rast zoom=temp_rast`;
`readCategory m` the line list of `r.category` (fallible, modelling an
engine failure). -/
structure Engine where
  catQuery : String → List String
  featureExtent : String → String → String × String × String × String
  alignedRegion : String × String × String × String → String → String
  rasterRes : String → String × String
  vectorRegion : String → String × String → String → String
  rasterize : String → String → String → String
  zoomedRegion : String → String
  readCategory : String → Except Unit (List String)

/-- Errors raised out of the driver methods. -/
inductive Err where
  /-- Exception: maps were not loaded successfully -/
  | notLoaded
  /-- Exception: columns were not set successfully -/
  | colsNotSet
  /-- IndexError on self.column_names[i] -/
  | idxColErr
  /-- IndexError on self.input_rasters[0] or self.input_rasters[i] -/
  | idxRastErr
  /-- exception propagating out of the metric function -/
  | metricErr
  /-- failure of an engine read command -/
  | engineErr
deriving DecidableEq

/-- overwrite=True creation of a named raster: the name is present
afterwards, never duplicated. -/
def addName (l : List String) (n : String) : List String :=
  if n ∈ l then l else l ++ [n]

/-- g.remove of a named raster. -/
def removeName (l : List String) (n : String) : List String :=
  l.filter (fun x => x ≠ n)

/-- Shallow embedding of number_patches (GeneralizedZonalStats.py,
lines 98-123).  Returns (raised exception?, returned count?, final
engine state). -/
def number_patches (eng : Engine) (input_raster_pid : String) (mask : Bool)
    (es : EngState) : Option Err × Option ℕ × EngState :=
  let temp_map_name := if mask then "pid_mask" else input_raster_pid
  let es1 := if mask then { es with temps := addName es.temps "pid_mask" } else es
  match eng.readCategory temp_map_name with
  | .error _ => (some .engineErr, none, es1)
  | .ok lines =>
      let map_vals := lines.filter (fun v => v ≠ "")
      let es2 :=
        if mask then { es1 with temps := removeName es1.temps "pid_mask" } else es1
      (none, some map_vals.length, es2)

/-! ### create_new_column -/

/-- Exceptions raised by create_new_column. -/
inductive ColErr where
  /-- ValueError: column names should be up to 10 characters -/
  | valueErr
  /-- Exception raised after an N or invalid overwrite answer -/
  | abortErr
  /-- NameError: the unknown-type branch calls g.error but no module g exists -/
  | nameErrG
deriving DecidableEq

/-- grass.error messages create_new_column can emit without raising. -/
inductive ColMsg where
  /-- the lists of column names/types and input rasters differ in length -/
  | lengthMismatch
deriving DecidableEq

/-- Result of create_new_column: raised exception (if any), object state
at return/raise time, list of v.db.addcolumn command payloads issued,
and grass.error messages emitted. -/
structure ColRes where
  err : Option ColErr
  state : State
  cmds : List String
  errMsgs : List ColMsg
deriving DecidableEq

/-- The per-column loop of create_new_column (lines 245-283): builds the
list_cols string; prompts (via `answers`, indexed by prompt count `k`)
when the column exists; aborts on N or an invalid reply; raises NameError
on an unknown type tag. -/
def cnLoop (existing : List String) (answers : ℕ → String) (total : ℕ) :
    List (ℕ × String × String) → ℕ → String → Except ColErr String
  | [], _, acc => .ok acc
  | (i, cn, tc) :: rest, k, acc =>
      if cn ∈ existing then
        let a := answers k
        if a = "Y" ∨ a = "y" then cnLoop existing answers total rest (k + 1) acc
        else .error .abortErr
      else
        if tc = "int" then
          cnLoop existing answers total rest k
            (acc ++ cn ++ " " ++ "integer" ++ if i < total - 1 then ", " else "")
        else if tc = "float" then
          cnLoop existing answers total rest k
            (acc ++ cn ++ " " ++ "double precision" ++ if i < total - 1 then ", " else "")
        else if tc = "string" then
          cnLoop existing answers total rest k
            (acc ++ cn ++ " " ++ "varchar(20)" ++ if i < total - 1 then ", " else "")
        else .error .nameErrG

/-- Shallow embedding of create_new_column (GeneralizedZonalStats.py,
lines 221-302).  `existing_cols` is the answer of v.vector_columns;
`answers k` is the raw input reply to the k-th overwrite prompt.
Note the source stores self.column_names before any check. -/
def create_new_column (s : State) (column_names : List String)
    (type_col : List String) (existing_cols : List String)
    (answers : ℕ → String) : ColRes :=
  let s1 := { s with column_names := column_names }
  if column_names.any (fun n => decide (n.length > 10)) then
    { err := some .valueErr, state := s1, cmds := [], errMsgs := [] }
  else if column_names.length = s1.input_rasters.length ∧
      type_col.length = s1.input_rasters.length then
    let items := (List.range column_names.length).zip (column_names.zip type_col)
    match cnLoop existing_cols answers column_names.length items 0 "" with
    | .error e => { err := some e, state := s1, cmds := [], errMsgs := [] }
    | .ok list_cols =>
        { err := none, state := { s1 with set_cols := true },
          cmds := if list_cols ≠ "" then [list_cols] else [], errMsgs := [] }
  else
    { err := none, state := s1, cmds := [], errMsgs := [.lengthMismatch] }

example :
    (create_new_column (initGZS "shp" ["r1", "r2"]) ["c1", "c2"] ["int", "float"]
      [] (fun _ => "Y")).state.set_cols = true := by decide

example :
    (create_new_column (initGZS "shp" ["r1", "r2"]) ["c1", "c2"] ["int", "float"]
      [] (fun _ => "Y")).cmds = ["c1 integer, c2 double precision"] := by decide

example :
    (create_new_column (initGZS "shp" ["r1"]) ["c1", "c2"] ["int", "int"]
      [] (fun _ => "Y")).errMsgs = [.lengthMismatch] := by decide

/-! ### run_zonal_stats (both versions) -/

/-- A metric callback: receives the raster name and reads the engine's
current region and active mask; returns the value written to the table
(the source stores str(val)) or raises. -/
def Metric : Type := String → String → Option String → Except Unit String

/-- The per-raster inner loop shared by both run_zonal_stats versions
(main file lines 336-346, v001 lines 413-423): for each index i, read
column_names[i] then input_rasters[i], call the metric, append the
v.db.update write.  An exception leaves the engine state as it stands. -/
def colLoop (metric : Metric) (cols rasters : List String) (cat : String) :
    List ℕ → EngState → Option Err × EngState
  | [], es => (none, es)
  | i :: rest, es =>
      match cols[i]?, rasters[i]? with
      | some col, some rast =>
          (match metric rast es.region es.maskCat with
           | .error _ => (some .metricErr, es)
           | .ok v =>
               colLoop metric cols rasters cat rest
                 { es with db := es.db ++ [(cat, col, v)] })
      | none, _ => (some .idxColErr, es)
      | some _, none => (some .idxRastErr, es)

/-- The region active while feature cat is processed by the v001 loop:
extent query, aligned region, feature rasterization, zoom (v001 lines
394-407).  A function of the configuration and cat alone. -/
def regionForV001 (eng : Engine) (shape r0 cat : String) : String :=
  eng.zoomedRegion (eng.rasterize shape cat
    (eng.alignedRegion (eng.featureExtent shape cat) r0))

/-- The region active while feature cat is processed by the main-file
loop (main lines 320-330): resolution of the first raster, region of the
whole vector layer, feature rasterization, zoom. -/
def regionForMain (eng : Engine) (shape r0 cat : String) : String :=
  eng.zoomedRegion (eng.rasterize shape cat
    (eng.vectorRegion shape (eng.rasterRes r0) r0))

/-- Engine state right after temp_rast is rasterized, the region is
zoomed to it and the mask of feature cat is set. -/
def maskedState (reg cat : String) (es : EngState) : EngState :=
  { es with region := reg, temps := addName es.temps "temp_rast",
            maskCat := some cat }

/-- Engine state after the per-feature cleanup: mask released and
temp_rast removed. -/
def afterFeature (es : EngState) : EngState :=
  { es with maskCat := none, temps := removeName es.temps "temp_rast" }

/-- Per-feature loop of the v001 run_zonal_stats (v001 lines 387-432):
query the feature extent, set the aligned region, rasterize the feature
into temp_rast, zoom, set the mask, run the inner loop, then release the
mask and remove temp_rast.  No cleanup happens when the inner loop
raises. -/
def catLoopV001 (eng : Engine) (st : State) (metric : Metric) :
    List String → EngState → Option Err × EngState
  | [], es => (none, es)
  | cat :: rest, es =>
      match st.input_rasters[0]? with
      | none => (some .idxRastErr, es)
      | some r0 =>
          match colLoop metric st.column_names st.input_rasters cat
              (List.range st.input_rasters.length)
              (maskedState (regionForV001 eng st.input_shape r0 cat) cat es) with
          | (some e, es3) => (some e, es3)
          | (none, es3) => catLoopV001 eng st metric rest (afterFeature es3)

/-- Per-feature loop of the main-file run_zonal_stats (main file lines
318-355): reads the first raster's resolution, sets the region from the
whole vector layer, then rasterizes/zooms/masks exactly like v001. -/
def catLoopMain (eng : Engine) (st : State) (metric : Metric) :
    List String → EngState → Option Err × EngState
  | [], es => (none, es)
  | cat :: rest, es =>
      match st.input_rasters[0]? with
      | none => (some .idxRastErr, es)
      | some r0 =>
          match colLoop metric st.column_names st.input_rasters cat
              (List.range st.input_rasters.length)
              (maskedState (regionForMain eng st.input_shape r0 cat) cat es) with
          | (some e, es3) => (some e, es3)
          | (none, es3) => catLoopMain eng st metric rest (afterFeature es3)

/-- The select_cats argument of the v001 run_zonal_stats: the string
all, or a caller-supplied list of cat values. -/
inductive SelCats where
  | allCats : SelCats
  | listCats : List String → SelCats
deriving DecidableEq

/-- Feature enumeration of the v001 run_zonal_stats (v001 lines
376-382): cats from SELECT cat on the input shape's table, minus empty
lines and the header; the select_cats filter applies only when
select_cats is not the string all AND its length is at most the number
of enumerated cats. -/
def selectedCats (eng : Engine) (shape : String) (sel : SelCats) : List String :=
  let cats := (eng.catQuery shape).filter (fun v => v != "" && v != "cat")
  match sel with
  | .allCats => cats
  | .listCats l =>
      if l.length ≤ cats.length then cats.filter (fun v => l.contains v) else cats

/-- Shallow embedding of the main-file run_zonal_stats
(GeneralizedZonalStats.py, lines 306-363).  Note the source enumerates
cats with the hardcoded SQL `SELECT cat FROM mun_teste_wgs84`, not from
self.input_shape. -/
def run_zonal_stats (eng : Engine) (st : State) (metric : Metric)
    (es : EngState) : Option Err × EngState :=
  if st.set_cols && st.load_ok then
    let cat_info := eng.catQuery "mun_teste_wgs84"
    catLoopMain eng st metric (cat_info.filter (fun v => v != "" && v != "cat")) es
  else if !st.load_ok then (some .notLoaded, es)
  else (some .colsNotSet, es)

/-- Shallow embedding of run_zonal_stats from
scripts/GeneralizedZonalStats_v001.py, lines 354-440. -/
def run_zonal_stats_v001 (eng : Engine) (st : State) (metric : Metric)
    (select_cats : SelCats) (es : EngState) : Option Err × EngState :=
  if st.set_cols && st.load_ok then
    catLoopV001 eng st metric (selectedCats eng st.input_shape select_cats) es
  else if !st.load_ok then (some .notLoaded, es)
  else (some .colsNotSet, es)

/-- Last-write-wins view of the v.db.update log: the value currently in
row cat, column col. -/
def dbLookup (log : List (String × String × String)) (cat col : String) :
    Option String :=
  (log.reverse.find? (fun e => e.1 == cat && e.2.1 == col)).map (fun e => e.2.2)

/-- A concrete engine for ground tests: the table of mun_teste_wgs84
holds cat 1, every other table holds cat 2. -/
def engT : Engine :=
  { catQuery := fun t => if t = "mun_teste_wgs84" then ["cat", "1", ""] else ["cat", "2", ""],
    featureExtent := fun _ _ => ("n", "s", "e", "w"),
    alignedRegion := fun _ _ => "regA",
    rasterRes := fun _ => ("ew", "ns"),
    vectorRegion := fun _ _ _ => "regV",
    rasterize := fun _ cat _ => "td" ++ cat,
    zoomedRegion := fun td => "zoom" ++ td,
    readCategory := fun _ => .ok ["10", "20", ""] }

/-- A clean initial engine state. -/
def es0 : EngState := { region := "reg0", maskCat := none, temps := [], db := [] }

/-- A metric that always succeeds with value 7. -/
def metricOk : Metric := fun _ _ _ => .ok "7"

/-- A metric that always raises. -/
def metricBad : Metric := fun _ _ _ => .error ()

/-- A ready job state whose input shape is NOT mun_teste_wgs84. -/
def stMy : State :=
  { load_ok := true, set_cols := true, input_shape := "myshape",
    input_rasters := ["r"], column_names := ["c"] }

example : (run_zonal_stats engT stMy metricOk es0).2.db = [("1", "c", "7")] := by
  decide

example : (run_zonal_stats_v001 engT stMy metricOk .allCats es0).2.db
    = [("2", "c", "7")] := by decide

example : (run_zonal_stats engT stMy metricBad es0).1 = some .metricErr := by
  decide

example : "temp_rast" ∈ (run_zonal_stats engT stMy metricBad es0).2.temps := by
  decide

/-! ### Specification predicates over the frequency-table model -/

/-- The value-frequency tables, over cell values 0, 1 and null only,
with z zero-cells and o one-cells (rows for absent values are omitted,
present rows carry a positive count, the null row count is n). -/
def freqTableFor (z o : ℚ) (rows : List (String × ℚ)) : Prop :=
  (0 < z ∧ 0 < o ∧ (rows = [("0", z), ("1", o)] ∨
    ∃ n, 0 < n ∧ rows = [("0", z), ("1", o), ("*", n)])) ∨
  (z = 0 ∧ 0 < o ∧ (rows = [("1", o)] ∨
    ∃ n, 0 < n ∧ rows = [("1", o), ("*", n)])) ∨
  (o = 0 ∧ 0 < z ∧ (rows = [("0", z)] ∨
    ∃ n, 0 < n ∧ rows = [("0", z), ("*", n)]))

/-- The frequency tables with zero-count and one-count both 0: the
table of an empty or fully-null masked region (no 0/1 rows), or tables
carrying explicit zero-count rows. -/
def ZeroTableFor (rows : List (String × ℚ)) : Prop :=
  rows = [] ∨ rows = [("0", 0)] ∨ rows = [("1", 0)] ∨
  (∃ n, 0 < n ∧ rows = [("*", n)]) ∨ rows = [("0", 0), ("1", 0)] ∨
  (∃ n, 0 < n ∧ (rows = [("0", 0), ("*", n)] ∨ rows = [("1", 0), ("*", n)] ∨
    rows = [("0", 0), ("1", 0), ("*", n)]))

/-! ### Claim theorems -/

/-- C3: the claim says run_zonal_stats enumerates the feature identifiers
from the attribute table of the configured input vector layer, whatever
its name.  The main-file code instead queries the hardcoded table
mun_teste_wgs84: on a job configured with input_shape myshape, the run
processes cat 1 (the row of mun_teste_wgs84's table) although the table
of myshape holds only cat 2. -/
theorem c3_enumeration_uses_hardcoded_table :
    (run_zonal_stats engT stMy metricOk es0).2.db = [("1", "c", "7")] ∧
    (engT.catQuery stMy.input_shape).filter (fun v => v != "" && v != "cat")
      = ["2"] := by
  decide

/-- C5 counterexample: for the empty masked region (empty frequency
table) the claim predicts a DivisionUndefined failure, but the code
raises IndexError on valid_cell_counts[0] instead; for the fully-null
region (a lone null row) it raises IndexError on valid_cell_counts[1]. -/
theorem c5_counterexample_index_error :
    proportion_habitat [] = .error .idxErr ∧
    proportion_habitat [("*", 5)] = .error .idxErr := by
  constructor
  · simp +decide [proportion_habitat]
  · simp +decide [proportion_habitat]

/-- C5 as amended: when both counts are 0, proportion_habitat never
returns a numeric value; it fails through the guarded-division error
path (error message emitted, None returned) when the table has at least
two rows, and raises IndexError when the table (empty or fully-null
region) has fewer than two rows. -/
theorem c5_amended_no_numeric_value (rows : List (String × ℚ))
    (h : ZeroTableFor rows) :
    (∀ q msgs, proportion_habitat rows ≠ .ok (some q, msgs)) ∧
    (2 ≤ rows.length → proportion_habitat rows = .ok (none, [.badValues])) ∧
    (rows.length < 2 → proportion_habitat rows = .error .idxErr) := by
  rcases h with h | h | h | ⟨n, hn, h⟩ | h | ⟨n, hn, h | h | h⟩ <;> subst h <;>
    refine ⟨?_, ?_, ?_⟩ <;>
    simp +decide [proportion_habitat, phFinish]

/-- C5 witness: the amended theorem applied to the two-row zero-count
table. -/
theorem c5_amended_witness :
    ZeroTableFor [(("0" : String), (0 : ℚ)), ("1", 0)] ∧
    proportion_habitat [("0", 0), ("1", 0)] = .ok (none, [.badValues]) := by
  have hz : ZeroTableFor [(("0" : String), (0 : ℚ)), ("1", 0)] :=
    Or.inr (Or.inr (Or.inr (Or.inr (Or.inl rfl))))
  exact ⟨hz, (c5_amended_no_numeric_value _ hz).2.1 (by decide)⟩

/-- C6: if any column name in the batch is longer than 10 characters,
create_new_column raises ValueError before issuing any column-creation
command: no v.db.addcolumn payload, no message, set_cols untouched (the
only object-level effect, storing the new name list, happens before the
check but is not a table mutation). -/
theorem c6_long_name_rejected_before_mutation (s : State)
    (column_names type_col existing_cols : List String) (answers : ℕ → String)
    (h : ∃ n ∈ column_names, 10 < n.length) :
    create_new_column s column_names type_col existing_cols answers =
      { err := some .valueErr, state := { s with column_names := column_names },
        cmds := [], errMsgs := [] } := by
  have hb : column_names.any (fun n => decide (n.length > 10)) = true := by
    rcases h with ⟨n, hn, hlen⟩
    exact List.any_eq_true.mpr ⟨n, hn, by simpa using hlen⟩
  simp [create_new_column, hb]

/-- C6 witness: a batch holding an 11-character name. -/
theorem c6_witness :
    (∃ n ∈ ["abcdefghijk"], 10 < n.length) ∧
    create_new_column (initGZS "shp" ["r"]) ["abcdefghijk"] ["int"] []
        (fun _ => "Y") =
      { err := some .valueErr,
        state := { initGZS "shp" ["r"] with column_names := ["abcdefghijk"] },
        cmds := [], errMsgs := [] } := by
  have h : ∃ n ∈ ["abcdefghijk"], 10 < n.length := ⟨"abcdefghijk", by decide, by decide⟩
  exact ⟨h, c6_long_name_rejected_before_mutation _ _ _ _ _ h⟩

/-- Object state used in the C7 counterexample: a job over one raster
whose recorded column list is old. -/
def s7 : State :=
  { load_ok := true, set_cols := true, input_shape := "shp",
    input_rasters := ["r"], column_names := ["old"] }

/-- C7 counterexample: a create_new_column call whose list lengths
mismatch (2 names vs 1 raster) is claimed to cause no state change, but
the code overwrites self.column_names before the check: the object state
changes from column list old to the new names. -/
theorem c7_counterexample_state_changed :
    (create_new_column s7 ["a", "b"] ["int", "int"] [] (fun _ => "Y")).state ≠ s7 ∧
    (create_new_column s7 ["a", "b"] ["int", "int"] []
        (fun _ => "Y")).state.column_names = ["a", "b"] := by
  decide

/-- C7 as amended: on mismatched list lengths (all names within the
length bound) create_new_column raises nothing and only emits the
configuration error message; it creates no column and leaves load_ok and
set_cols unchanged, but the recorded column-name list is overwritten
with the new names. -/
theorem c7_amended_mismatch_no_mutation (s : State)
    (column_names type_col existing_cols : List String) (answers : ℕ → String)
    (hlen : ∀ n ∈ column_names, n.length ≤ 10)
    (hmis : ¬(column_names.length = s.input_rasters.length ∧
        type_col.length = s.input_rasters.length)) :
    create_new_column s column_names type_col existing_cols answers =
      { err := none, state := { s with column_names := column_names },
        cmds := [], errMsgs := [.lengthMismatch] } := by
  have hb : column_names.any (fun n => decide (n.length > 10)) = false := by
    refine List.any_eq_false.mpr ?_
    intro n hn
    simpa using hlen n hn
  simp [create_new_column, hb, hmis]

/-- C7 witness: the amended theorem at the counterexample input. -/
theorem c7_amended_witness :
    create_new_column s7 ["a", "b"] ["int", "int"] [] (fun _ => "Y") =
      { err := none, state := { s7 with column_names := ["a", "b"] },
        cmds := [], errMsgs := [.lengthMismatch] } :=
  c7_amended_mismatch_no_mutation s7 ["a", "b"] ["int", "int"] [] (fun _ => "Y")
    (by decide) (by decide)

/-- C8: calling run_zonal_stats before both readiness flags hold raises
the exception naming the unmet precondition (map loading is named first
when load_ok is false, otherwise the column step is named) and leaves
the engine state untouched: no feature processed, no table update. -/
theorem c8_not_ready_raises (eng : Engine) (st : State) (metric : Metric)
    (es : EngState) (h : (st.set_cols && st.load_ok) = false) :
    run_zonal_stats eng st metric es =
      (some (if st.load_ok then Err.colsNotSet else Err.notLoaded), es) := by
  cases hl : st.load_ok <;> cases hsc : st.set_cols <;>
    simp_all [run_zonal_stats]

/-- C8 witness: a freshly constructed job (columns not yet set). -/
theorem c8_witness :
    run_zonal_stats engT (initGZS "shp" ["r"]) metricOk es0 =
      (some Err.colsNotSet, es0) := by
  have h := c8_not_ready_raises engT (initGZS "shp" ["r"]) metricOk es0 (by decide)
  simpa using h

/-- Bounds of the habitat percentage. -/
theorem phBound (z o : ℚ) (hz : 0 ≤ z) (ho : 0 ≤ o) (hzo : 0 < o + z) :
    0 ≤ 100 * o / (o + z) ∧ 100 * o / (o + z) ≤ 100 := by
  constructor
  · positivity
  · rw [div_le_iff₀ hzo]
    linarith

/-- C1 counterexample: the all-zero mask whose frequency table lacks
both the 1-row and the null row satisfies the claim's premise (only
values 0/1/null, z=5, o=0, z+o>0), yet proportion_habitat raises
IndexError on valid_cell_counts[1] instead of returning 0.0. -/
theorem c1_counterexample_single_row :
    freqTableFor 5 0 [("0", 5)] ∧ proportion_habitat [("0", 5)] = .error .idxErr := by
  constructor
  · exact Or.inr (Or.inr ⟨rfl, by norm_num, Or.inl rfl⟩)
  · simp +decide [proportion_habitat]

/-- C1 as amended: on frequency tables over values 0/1/null with z
zero-cells, o one-cells, z+o>0, and at least two rows (when a 0-row or
1-row is absent the null row must be present; a single-row table instead
raises IndexError), proportion_habitat returns exactly 100*o/(o+z), a
value in [0,100] — 0 for an all-zero mask, 100 for an all-one mask. -/
theorem c1_amended_exact_percentage (z o : ℚ) (rows : List (String × ℚ))
    (h : freqTableFor z o rows) (h2 : 2 ≤ rows.length) :
    proportion_habitat rows = .ok (some (100 * o / (o + z)), []) ∧
    0 ≤ 100 * o / (o + z) ∧ 100 * o / (o + z) ≤ 100 := by
  rcases h with ⟨hz, ho, hrows | ⟨n, hn, hrows⟩⟩ |
    ⟨hz, ho, hrows | ⟨n, hn, hrows⟩⟩ | ⟨ho, hz, hrows | ⟨n, hn, hrows⟩⟩ <;>
      subst hrows
  · have hzo : o + z ≠ 0 := by positivity
    refine ⟨?_, phBound z o hz.le ho.le (by positivity)⟩
    simp +decide [proportion_habitat, phFinish, hzo, mul_div_assoc]
  · have hzo : o + z ≠ 0 := by positivity
    refine ⟨?_, phBound z o hz.le ho.le (by positivity)⟩
    simp +decide [proportion_habitat, phFinish, hzo, mul_div_assoc]
  · simp at h2
  · subst hz
    have hzo : o + 0 ≠ 0 := by positivity
    refine ⟨?_, phBound 0 o le_rfl ho.le (by positivity)⟩
    simp +decide [proportion_habitat, phFinish, hzo, mul_div_assoc, ho.ne']
  · simp at h2
  · subst ho
    have hzo : (0 : ℚ) + z ≠ 0 := by positivity
    refine ⟨?_, phBound z 0 hz.le le_rfl (by positivity)⟩
    simp +decide [proportion_habitat, phFinish, hzo, mul_div_assoc, hz.ne']

/-- The inner per-raster loop only appends table writes: the temp-raster
set, the mask and the region are untouched. -/
theorem colLoop_keeps_temps (metric : Metric) (cols rasters : List String)
    (cat : String) :
    ∀ idxs es, (colLoop metric cols rasters cat idxs es).2.temps = es.temps := by
  intro idxs
  induction idxs with
  | nil => intro es; rfl
  | cons i rest ih =>
      intro es
      simp only [colLoop]
      cases hc : cols[i]? with
      | none => simp
      | some col =>
          cases hr : rasters[i]? with
          | none => simp
          | some rast =>
              cases hm : metric rast es.region es.maskCat with
              | error e => simp [hm]
              | ok v => simp [hm, ih]

/-- A normally-completing main-file feature loop leaves no temp_rast
behind (each iteration that finishes removes it). -/
theorem catLoopMain_cleanup (eng : Engine) (st : State) (metric : Metric) :
    ∀ cats es, "temp_rast" ∉ es.temps →
      (catLoopMain eng st metric cats es).1 = none →
      "temp_rast" ∉ (catLoopMain eng st metric cats es).2.temps := by
  intro cats
  induction cats with
  | nil => intro es h _; exact h
  | cons cat rest ih =>
      intro es h hnone
      simp only [catLoopMain] at hnone ⊢
      cases hr : st.input_rasters[0]? with
      | none => simp [hr] at hnone
      | some r0 =>
          simp only [hr] at hnone ⊢
          rcases hx : colLoop metric st.column_names st.input_rasters cat
              (List.range st.input_rasters.length)
              (maskedState (regionForMain eng st.input_shape r0 cat) cat es) with
            ⟨eOpt, es3⟩
          simp only [hx] at hnone ⊢
          cases eOpt with
          | some e => simp at hnone
          | none =>
              simp only at hnone ⊢
              exact ih _ (by simp [afterFeature, removeName, List.mem_filter]) hnone

/-- C4 counterexample: a run of the zonal driver that exits by a raised
error (the metric fails on the only feature) leaves the temporary raster
temp_rast in the external workspace. -/
theorem c4_counterexample_leak_on_error :
    (run_zonal_stats engT stMy metricBad es0).1 = some .metricErr ∧
    "temp_rast" ∈ (run_zonal_stats engT stMy metricBad es0).2.temps := by
  decide

/-- C4 as amended: the cleanup invariant holds on normal completion
only: a run of the main-file driver that returns without raising leaves
no temp_rast in the workspace, and a number_patches call with its mask
option that returns without raising leaves no pid_mask; a run aborted by
a raised error can leave the current feature's temporaries behind. -/
theorem c4_amended_cleanup_on_success (eng : Engine) (st : State)
    (metric : Metric) (es esB : EngState) (pid : String)
    (h1 : "temp_rast" ∉ es.temps) :
    ((run_zonal_stats eng st metric es).1 = none →
      "temp_rast" ∉ (run_zonal_stats eng st metric es).2.temps) ∧
    ((number_patches eng pid true esB).1 = none →
      "pid_mask" ∉ (number_patches eng pid true esB).2.2.temps) := by
  constructor
  · intro hnone
    by_cases hready : (st.set_cols && st.load_ok) = true
    · rw [run_zonal_stats] at hnone ⊢
      rw [if_pos hready] at hnone ⊢
      exact catLoopMain_cleanup eng st metric _ es h1 hnone
    · rw [run_zonal_stats] at hnone ⊢
      rw [if_neg hready] at hnone ⊢
      cases hl : (!st.load_ok) with
      | true => rw [if_pos hl] at hnone; simp at hnone
      | false => rw [if_neg (by simp [hl])] at hnone; simp at hnone
  · intro hnone
    rw [number_patches] at hnone ⊢
    cases hrc : eng.readCategory "pid_mask" with
    | error e => simp [hrc] at hnone
    | ok lines => simp [hrc, removeName, List.mem_filter]

/-- C4 witness: the amended cleanup statement at a concrete successful
run and number_patches call. -/
theorem c4_amended_witness :
    ((run_zonal_stats engT stMy metricOk es0).1 = none →
      "temp_rast" ∉ (run_zonal_stats engT stMy metricOk es0).2.temps) ∧
    ((number_patches engT "pid" true es0).1 = none →
      "pid_mask" ∉ (number_patches engT "pid" true es0).2.2.temps) :=
  c4_amended_cleanup_on_success engT stMy metricOk es0 es0 "pid" (by decide)

/-- C1 witness: the amended theorem at a 1-zero/3-one table: 75%. -/
theorem c1_amended_witness :
    freqTableFor 1 3 [("0", 1), ("1", 3)] ∧
    (proportion_habitat [("0", 1), ("1", 3)] = .ok (some (100 * 3 / (3 + 1)), []) ∧
      0 ≤ (100 : ℚ) * 3 / (3 + 1) ∧ (100 : ℚ) * 3 / (3 + 1) ≤ 100) := by
  have hft : freqTableFor 1 3 [("0", 1), ("1", 3)] :=
    Or.inl ⟨by norm_num, by norm_num, Or.inl rfl⟩
  exact ⟨hft, c1_amended_exact_percentage 1 3 _ hft (by decide)⟩

/-- Every table entry appended by the inner per-raster loop carries the
cat being processed. -/
theorem colLoop_db_entries (metric : Metric) (cols rasters : List String)
    (cat : String) :
    ∀ idxs es e, e ∈ (colLoop metric cols rasters cat idxs es).2.db →
      e ∈ es.db ∨ e.1 = cat := by
  intro idxs
  induction idxs with
  | nil => intro es e he; exact Or.inl he
  | cons i rest ih =>
      intro es e he
      simp only [colLoop] at he
      cases hc : cols[i]? with
      | none => simp only [hc] at he; exact Or.inl he
      | some col =>
          simp only [hc] at he
          cases hr : rasters[i]? with
          | none => simp only [hr] at he; exact Or.inl he
          | some rast =>
              simp only [hr] at he
              cases hm : metric rast es.region es.maskCat with
              | error e2 => simp only [hm] at he; exact Or.inl he
              | ok v =>
                  simp only [hm] at he
                  rcases ih _ e he with h | h
                  · rcases List.mem_append.mp h with h2 | h2
                    · exact Or.inl h2
                    · right
                      simp only [List.mem_singleton] at h2
                      rw [h2]
                  · exact Or.inr h

/-- Every table entry appended by the v001 feature loop carries one of
the processed cats. -/
theorem catLoopV001_db_entries (eng : Engine) (st : State) (metric : Metric) :
    ∀ cats es e, e ∈ (catLoopV001 eng st metric cats es).2.db →
      e ∈ es.db ∨ e.1 ∈ cats := by
  intro cats
  induction cats with
  | nil => intro es e he; exact Or.inl he
  | cons cat rest ih =>
      intro es e he
      simp only [catLoopV001] at he
      cases hr : st.input_rasters[0]? with
      | none => simp only [hr] at he; exact Or.inl he
      | some r0 =>
          simp only [hr] at he
          rcases hx : colLoop metric st.column_names st.input_rasters cat
              (List.range st.input_rasters.length)
              (maskedState (regionForV001 eng st.input_shape r0 cat) cat es) with
            ⟨eOpt, es3⟩
          simp only [hx] at he
          have hcol : ∀ e2, e2 ∈ es3.db → e2 ∈ es.db ∨ e2.1 = cat := by
            intro e2 he2
            have h := colLoop_db_entries metric st.column_names st.input_rasters cat
              (List.range st.input_rasters.length)
              (maskedState (regionForV001 eng st.input_shape r0 cat) cat es) e2
            rw [hx] at h
            simpa [maskedState] using h he2
          cases eOpt with
          | some e2 =>
              simp only at he
              rcases hcol e he with h | h
              · exact Or.inl h
              · exact Or.inr (by simp [h])
          | none =>
              simp only at he
              rcases ih _ e he with h | h
              · rcases hcol e (by simpa [afterFeature] using h) with h2 | h2
                · exact Or.inl h2
                · exact Or.inr (by simp [h2])
              · exact Or.inr (List.mem_cons_of_mem _ h)

/-- C2 counterexample: with one existing feature (cat 2 in the table of
myshape) and select_cats naming the two unknown cats 7 and 8, the claim
requires the processed set to be the empty intersection, but the length
guard before the filter is false (2 > 1), the filter is skipped and
feature 2 is processed and written. -/
theorem c2_counterexample_filter_skipped :
    (run_zonal_stats_v001 engT stMy metricOk (.listCats ["7", "8"]) es0).2.db
      = [("2", "c", "7")] ∧
    "2" ∉ (["7", "8"] : List String) := by
  decide

/-- C2 as amended: when select_cats is a list of at most as many
identifiers as the table has rows, the processed identifiers are exactly
the requested ones that exist (the intersection, in table order, unknown
ones silently dropped), and every table write of the run is for such an
identifier; when the list is longer than the table, the filter is
skipped entirely and all features are processed. -/
theorem c2_amended_intersection (eng : Engine) (st : State) (metric : Metric)
    (l : List String) (es : EngState)
    (hlen : l.length ≤ ((eng.catQuery st.input_shape).filter
        (fun v => v != "" && v != "cat")).length) :
    (∀ c, c ∈ selectedCats eng st.input_shape (.listCats l) ↔
      c ∈ (eng.catQuery st.input_shape).filter (fun v => v != "" && v != "cat") ∧
        c ∈ l) ∧
    (∀ e, e ∈ (run_zonal_stats_v001 eng st metric (.listCats l) es).2.db →
      e ∈ es.db ∨ e.1 ∈ selectedCats eng st.input_shape (.listCats l)) := by
  constructor
  · intro c
    simp only [selectedCats, if_pos hlen, List.mem_filter, List.elem_iff,
      bne_iff_ne, ne_eq, Bool.and_eq_true, decide_eq_true_eq]
  · intro e he
    by_cases hready : (st.set_cols && st.load_ok) = true
    · rw [run_zonal_stats_v001, if_pos hready] at he
      exact catLoopV001_db_entries eng st metric _ es e he
    · rw [run_zonal_stats_v001, if_neg hready] at he
      by_cases hl : (!st.load_ok) = true
      · rw [if_pos hl] at he; exact Or.inl he
      · rw [if_neg hl] at he; exact Or.inl he

/-- C2 witness: the amended statement at a job whose table holds cat 2
and a select list naming exactly cat 2. -/
theorem c2_amended_witness :
    (∀ c, c ∈ selectedCats engT stMy.input_shape (.listCats ["2"]) ↔
      c ∈ (engT.catQuery stMy.input_shape).filter (fun v => v != "" && v != "cat") ∧
        c ∈ ["2"]) ∧
    (∀ e, e ∈ (run_zonal_stats_v001 engT stMy metricOk (.listCats ["2"]) es0).2.db →
      e ∈ es0.db ∨ e.1 ∈ selectedCats engT stMy.input_shape (.listCats ["2"])) :=
  c2_amended_intersection engT stMy metricOk ["2"] es0 (by decide)

/-- Object state after a successful create_new_column on a two-raster
job: set_cols true, two column names. -/
def s10a : State :=
  (create_new_column (initGZS "shp" ["r1", "r2"]) ["c1", "c2"] ["int", "int"]
    [] (fun _ => "Y")).state

/-- Object state after a second create_new_column call with one name on
the same two-raster job: the call only logs the length mismatch, but it
has already overwritten column_names, while set_cols stays true. -/
def s10b : State :=
  (create_new_column s10a ["c3"] ["int"] [] (fun _ => "Y")).state

/-- C10 counterexample: after a successful create_new_column followed by
one with mismatched list lengths, set_cols is true while column_names is
shorter than input_rasters, and the per-raster loop of run_zonal_stats
then raises IndexError reading self.column_names[1]. -/
theorem c10_counterexample_stale_flag :
    s10b.set_cols = true ∧
    s10b.column_names.length ≠ s10b.input_rasters.length ∧
    (run_zonal_stats engT s10b metricOk es0).1 = some .idxColErr := by
  decide

/-- Indices below the column-list length never produce the column
IndexError in the inner loop. -/
theorem colLoop_no_col_idx_err (metric : Metric) (cols rasters : List String)
    (cat : String) :
    ∀ idxs es, (∀ i ∈ idxs, i < cols.length) →
      (colLoop metric cols rasters cat idxs es).1 ≠ some .idxColErr := by
  intro idxs
  induction idxs with
  | nil => intro es _; simp [colLoop]
  | cons i rest ih =>
      intro es hb
      have hi : i < cols.length := hb i (List.mem_cons_self i rest)
      simp only [colLoop]
      rw [List.getElem?_eq_getElem hi]
      cases hr : rasters[i]? with
      | none => simp
      | some rast =>
          cases hm : metric rast es.region es.maskCat with
          | error e => simp [hm]
          | ok v =>
              simp only [hm]
              exact ih _ (fun j hj => hb j (List.mem_cons_of_mem i hj))

/-- When the recorded column list is as long as the raster list, the
main-file feature loop never raises the column IndexError. -/
theorem catLoopMain_no_col_idx_err (eng : Engine) (st : State) (metric : Metric)
    (h : st.column_names.length = st.input_rasters.length) :
    ∀ cats es, (catLoopMain eng st metric cats es).1 ≠ some .idxColErr := by
  intro cats
  induction cats with
  | nil => intro es; simp [catLoopMain]
  | cons cat rest ih =>
      intro es
      simp only [catLoopMain]
      cases hr : st.input_rasters[0]? with
      | none => simp
      | some r0 =>
          rcases hx : colLoop metric st.column_names st.input_rasters cat
              (List.range st.input_rasters.length)
              (maskedState (regionForMain eng st.input_shape r0 cat) cat es) with
            ⟨eOpt, es3⟩
          have hno := colLoop_no_col_idx_err metric st.column_names st.input_rasters
            cat (List.range st.input_rasters.length)
            (maskedState (regionForMain eng st.input_shape r0 cat) cat es)
            (fun j hj => by rw [h]; exact List.mem_range.mp hj)
          cases eOpt with
          | some e =>
              simp only [hx]
              rw [hx] at hno
              simpa using hno
          | none => simp only [hx]; exact ih _

/-- C10 as amended: a create_new_column call that turns set_cols from
false to true establishes len(column_names) == len(input_rasters), and
whenever that equality holds the per-raster loop of run_zonal_stats
cannot raise the column IndexError; the invariant is not preserved by a
later create_new_column call whose lists mismatch (it overwrites
column_names and leaves set_cols true). -/
theorem c10_amended_invariant (s : State) (cols types ex : List String)
    (ans : ℕ → String) (r : ColRes) (eng : Engine) (metric : Metric)
    (es : EngState) (st : State)
    (h0 : s.set_cols = false) (hr : create_new_column s cols types ex ans = r)
    (h1 : r.state.set_cols = true)
    (h2 : st.column_names.length = st.input_rasters.length) :
    r.state.column_names.length = r.state.input_rasters.length ∧
    (run_zonal_stats eng st metric es).1 ≠ some .idxColErr := by
  constructor
  · simp only [create_new_column] at hr
    split at hr
    · subst hr; simp [h0] at h1
    · split at hr
      · split at hr
        · subst hr; simp [h0] at h1
        · subst hr
          rename_i hcond _ _ _
          simpa using hcond.1
      · subst hr; simp [h0] at h1
  · rw [run_zonal_stats]
    by_cases hready : (st.set_cols && st.load_ok) = true
    · rw [if_pos hready]
      exact catLoopMain_no_col_idx_err eng st metric h2 _ es
    · rw [if_neg hready]
      by_cases hl : (!st.load_ok) = true
      · rw [if_pos hl]; simp
      · rw [if_neg hl]; simp

/-- C10 witness: the amended invariant at a one-raster job. -/
theorem c10_amended_witness :
    (create_new_column (initGZS "shp" ["r"]) ["c"] ["int"] []
        (fun _ => "Y")).state.column_names.length =
      (create_new_column (initGZS "shp" ["r"]) ["c"] ["int"] []
        (fun _ => "Y")).state.input_rasters.length ∧
    (run_zonal_stats engT stMy metricOk es0).1 ≠ some .idxColErr :=
  c10_amended_invariant (initGZS "shp" ["r"]) ["c"] ["int"] [] (fun _ => "Y")
    _ engT metricOk es0 stMy (by decide) rfl (by decide) (by decide)

/-- Creating and then removing the same raster name leaves exactly the
removal of that name. -/
theorem removeName_addName (l : List String) (n : String) :
    removeName (addName l n) n = removeName l n := by
  unfold addName removeName
  by_cases h : n ∈ l
  · rw [if_pos h]
  · rw [if_neg h, List.filter_append]
    simp

/-- Removing a name twice is the same as removing it once. -/
theorem removeName_idem (l : List String) (n : String) :
    removeName (removeName l n) n = removeName l n := by
  unfold removeName
  rw [List.filter_filter]
  simp

/-- Writes for the distinct cats 1, 2, 3 commute in the last-write-wins
view of the table, whatever writes D came before. -/
theorem dbLookup_perm3 (D : List (String × String × String))
    (c v1 v2 v3 cat col : String) :
    dbLookup (D ++ [("1", c, v1), ("2", c, v2), ("3", c, v3)]) cat col =
      dbLookup (D ++ [("3", c, v3), ("1", c, v1), ("2", c, v2)]) cat col := by
  simp only [dbLookup, List.reverse_append, List.reverse_cons, List.reverse_nil,
    List.nil_append, List.append_assoc, List.cons_append, List.singleton_append]
  rcases Bool.eq_false_or_eq_true (("1" : String) == cat && c == col) with hb1 | hb1 <;>
    rcases Bool.eq_false_or_eq_true (("2" : String) == cat && c == col) with hb2 | hb2 <;>
      rcases Bool.eq_false_or_eq_true (("3" : String) == cat && c == col) with hb3 | hb3 <;>
        first
          | (simp only [Bool.and_eq_true, beq_iff_eq] at hb1 hb2 hb3
             first
               | exact absurd (hb1.1.trans hb2.1.symm) (by decide)
               | exact absurd (hb1.1.trans hb3.1.symm) (by decide)
               | exact absurd (hb2.1.trans hb3.1.symm) (by decide))
          | simp [List.find?, hb1, hb2, hb3]

/-- A ready job over one raster and one destination column. -/
def oneJob (shape r c : String) : State :=
  { load_ok := true, set_cols := true, input_shape := shape,
    input_rasters := [r], column_names := [c] }

/-- Engine state left behind by one completed feature iteration of the
v001 loop on a one-raster job: region zoomed to the feature, mask
released, temp_rast removed, the metric value appended for the
feature's row. -/
def stepState (reg cat c v : String) (es : EngState) : EngState :=
  { region := reg, maskCat := none,
    temps := removeName es.temps "temp_rast",
    db := es.db ++ [(cat, c, v)] }

/-- One successful feature iteration of the v001 loop on a one-raster,
one-column job: the mask is set to the feature, the metric is invoked on
the raster under the feature's region and mask, its value is written for
the feature's row, and mask and temp_rast are released. -/
theorem catLoopV001_step (eng : Engine) (shape r c cat : String) (metric : Metric)
    (rest : List String) (es : EngState) (v : String)
    (hv : metric r (regionForV001 eng shape r cat) (some cat) = .ok v) :
    catLoopV001 eng (oneJob shape r c) metric (cat :: rest) es =
      catLoopV001 eng (oneJob shape r c) metric rest
        (stepState (regionForV001 eng shape r cat) cat c v es) := by
  simp [catLoopV001, colLoop, maskedState, afterFeature, oneJob, stepState, hv,
    List.range_succ, removeName_addName]

/-- C9: order-independence of the v001 run across features, despite the
shared mutable window/mask.  For a vector layer with features 1, 2, 3
and one raster, when the metric succeeds on each feature's masked
raster, the run completes, each feature's destination column holds
exactly the value the metric produces for that feature's region and
mask, and the final written table is identical whether the features are
enumerated in order 1,2,3 or 3,1,2. -/
theorem c9_order_independence (eng eng1 eng2 : Engine) (shape r c : String)
    (metric : Metric) (es : EngState) (v1 v2 v3 : String)
    (h1 : eng1 = { eng with catQuery := fun _ => ["cat", "1", "2", "3", ""] })
    (h2 : eng2 = { eng with catQuery := fun _ => ["cat", "3", "1", "2", ""] })
    (hv1 : metric r (regionForV001 eng shape r "1") (some "1") = .ok v1)
    (hv2 : metric r (regionForV001 eng shape r "2") (some "2") = .ok v2)
    (hv3 : metric r (regionForV001 eng shape r "3") (some "3") = .ok v3) :
    (run_zonal_stats_v001 eng1 (oneJob shape r c) metric .allCats es).1 = none ∧
    (run_zonal_stats_v001 eng2 (oneJob shape r c) metric .allCats es).1 = none ∧
    dbLookup (run_zonal_stats_v001 eng1 (oneJob shape r c) metric
      .allCats es).2.db "1" c = some v1 ∧
    dbLookup (run_zonal_stats_v001 eng1 (oneJob shape r c) metric
      .allCats es).2.db "2" c = some v2 ∧
    dbLookup (run_zonal_stats_v001 eng1 (oneJob shape r c) metric
      .allCats es).2.db "3" c = some v3 ∧
    (∀ cat col, dbLookup (run_zonal_stats_v001 eng1 (oneJob shape r c) metric
        .allCats es).2.db cat col =
      dbLookup (run_zonal_stats_v001 eng2 (oneJob shape r c) metric
        .allCats es).2.db cat col) := by
  have hr1 : ∀ ct, regionForV001 eng1 shape r ct = regionForV001 eng shape r ct := by
    intro ct; rw [h1]; rfl
  have hr2 : ∀ ct, regionForV001 eng2 shape r ct = regionForV001 eng shape r ct := by
    intro ct; rw [h2]; rfl
  have hv1A : metric r (regionForV001 eng1 shape r "1") (some "1") = .ok v1 := by
    rw [hr1]; exact hv1
  have hv2A : metric r (regionForV001 eng1 shape r "2") (some "2") = .ok v2 := by
    rw [hr1]; exact hv2
  have hv3A : metric r (regionForV001 eng1 shape r "3") (some "3") = .ok v3 := by
    rw [hr1]; exact hv3
  have hv1B : metric r (regionForV001 eng2 shape r "1") (some "1") = .ok v1 := by
    rw [hr2]; exact hv1
  have hv2B : metric r (regionForV001 eng2 shape r "2") (some "2") = .ok v2 := by
    rw [hr2]; exact hv2
  have hv3B : metric r (regionForV001 eng2 shape r "3") (some "3") = .ok v3 := by
    rw [hr2]; exact hv3
  have hq1 : eng1.catQuery (oneJob shape r c).input_shape
      = ["cat", "1", "2", "3", ""] := by rw [h1]
  have hq2 : eng2.catQuery (oneJob shape r c).input_shape
      = ["cat", "3", "1", "2", ""] := by rw [h2]
  have hA : run_zonal_stats_v001 eng1 (oneJob shape r c) metric .allCats es =
      catLoopV001 eng1 (oneJob shape r c) metric ["1", "2", "3"] es := by
    rw [run_zonal_stats_v001]
    rw [if_pos (by simp [oneJob])]
    rw [selectedCats, hq1]
    simp +decide
  have hB : run_zonal_stats_v001 eng2 (oneJob shape r c) metric .allCats es =
      catLoopV001 eng2 (oneJob shape r c) metric ["3", "1", "2"] es := by
    rw [run_zonal_stats_v001]
    rw [if_pos (by simp [oneJob])]
    rw [selectedCats, hq2]
    simp +decide
  have hA2 : catLoopV001 eng1 (oneJob shape r c) metric ["1", "2", "3"] es =
      (none, stepState (regionForV001 eng1 shape r "3") "3" c v3
        (stepState (regionForV001 eng1 shape r "2") "2" c v2
          (stepState (regionForV001 eng1 shape r "1") "1" c v1 es))) := by
    rw [catLoopV001_step eng1 shape r c "1" metric ["2", "3"] es v1 hv1A,
      catLoopV001_step eng1 shape r c "2" metric ["3"] _ v2 hv2A,
      catLoopV001_step eng1 shape r c "3" metric [] _ v3 hv3A]
    rfl
  have hB2 : catLoopV001 eng2 (oneJob shape r c) metric ["3", "1", "2"] es =
      (none, stepState (regionForV001 eng2 shape r "2") "2" c v2
        (stepState (regionForV001 eng2 shape r "1") "1" c v1
          (stepState (regionForV001 eng2 shape r "3") "3" c v3 es))) := by
    rw [catLoopV001_step eng2 shape r c "3" metric ["1", "2"] es v3 hv3B,
      catLoopV001_step eng2 shape r c "1" metric ["2"] _ v1 hv1B,
      catLoopV001_step eng2 shape r c "2" metric [] _ v2 hv2B]
    rfl
  refine ⟨?_, ?_, ?_, ?_, ?_, ?_⟩
  · rw [hA, hA2]
  · rw [hB, hB2]
  · rw [hA, hA2]
    simp +decide [stepState, dbLookup, List.find?, List.reverse_append]
  · rw [hA, hA2]
    simp +decide [stepState, dbLookup, List.find?, List.reverse_append]
  · rw [hA, hA2]
    simp +decide [stepState, dbLookup, List.find?, List.reverse_append]
  · intro cat col
    rw [hA, hA2, hB, hB2]
    simp only [stepState, List.append_assoc, List.cons_append, List.nil_append,
      List.singleton_append]
    exact dbLookup_perm3 es.db c v1 v2 v3 cat col

/-- The concrete engine engT with the features 1, 2, 3 enumerated in
table order. -/
def engT1 : Engine := { engT with catQuery := fun _ => ["cat", "1", "2", "3", ""] }

/-- The concrete engine engT with the same features enumerated in the
order 3, 1, 2. -/
def engT2 : Engine := { engT with catQuery := fun _ => ["cat", "3", "1", "2", ""] }

/-- C9 witness: the order-independence statement at the concrete engine
engT and the constant metric. -/
theorem c9_witness :
    (run_zonal_stats_v001 engT1 (oneJob "s" "r" "c") metricOk .allCats es0).1
      = none ∧
    (run_zonal_stats_v001 engT2 (oneJob "s" "r" "c") metricOk .allCats es0).1
      = none ∧
    dbLookup (run_zonal_stats_v001 engT1 (oneJob "s" "r" "c") metricOk
      .allCats es0).2.db "1" "c" = some "7" ∧
    dbLookup (run_zonal_stats_v001 engT1 (oneJob "s" "r" "c") metricOk
      .allCats es0).2.db "2" "c" = some "7" ∧
    dbLookup (run_zonal_stats_v001 engT1 (oneJob "s" "r" "c") metricOk
      .allCats es0).2.db "3" "c" = some "7" ∧
    (∀ cat col, dbLookup (run_zonal_stats_v001 engT1 (oneJob "s" "r" "c") metricOk
        .allCats es0).2.db cat col =
      dbLookup (run_zonal_stats_v001 engT2 (oneJob "s" "r" "c") metricOk
        .allCats es0).2.db cat col) :=
  c9_order_independence engT engT1 engT2 "s" "r" "c" metricOk es0 "7" "7" "7"
    rfl rfl rfl rfl rfl
